import Mathlib

/-!
Verification of the control-decision engine of `fan_control.py`
(repository `gpu-fan-control`).

Shallow embedding conventions:
* Python floats (temperatures, power draws) are modelled as exact
  rationals `ℚ`; integer percent/PWM values as `ℤ`.
* Python `int(x)` truncates toward zero; it is modelled by `pyInt`.
* Python dictionaries used as mutable state (`previous_fan_speeds`,
  `status.fan_speeds`) are modelled as functions `String → Option ℤ`;
  `dict.get(k, d)` becomes `(st k).getD d` and assignment becomes a
  pointwise functional update.
* The numeric interpolation inside human-readable log/reason strings
  (Python f-string formatting such as `:.1f`) is abstracted: reason
  strings keep the fixed message text of the source, with numbers
  rendered via `toString`.  No claim depends on the exact digits.
-/

namespace FanControl

/-- Python `int(x)`: truncation of a rational toward zero
(floor for nonnegative values, ceiling for negative ones). -/
def pyInt (q : ℚ) : ℤ := if 0 ≤ q then ⌊q⌋ else ⌈q⌉

/-- `temperature_thresholds.cpu` section of the configuration. -/
structure CpuThresholds where
  min_temp : ℚ
  max_temp : ℚ
  min_speed : ℤ

/-- `temperature_thresholds.gpu` section of the configuration. -/
structure GpuThresholds where
  min_temp : ℚ
  max_temp : ℚ
  critical_temp : ℚ

/-- `temperature_thresholds.vrm` section of the configuration. -/
structure VrmThresholds where
  cpu_temp_threshold : ℚ
  gpu_temp_threshold : ℚ
  default_speed : ℤ

/-- `power_thresholds` section of the configuration. -/
structure PowerThresholds where
  gpu_critical_power : ℚ
  vrm_activation_power : ℚ

/-- `control.smoothing` section of the configuration.  Every key is
optional (the source reads each one with `dict.get(key, default)`);
an absent `smoothing` section is the record with all fields `none`. -/
structure SmoothingConfig where
  enabled : Option Bool
  cpu_max_change_up : Option ℤ
  cpu_max_change_down : Option ℤ
  gpu_max_change_up : Option ℤ
  gpu_max_change_down : Option ℤ
  vrm_max_change_up : Option ℤ
  vrm_max_change_down : Option ℤ

/-- The configuration slices the controller reads
(`temperature_thresholds`, `power_thresholds`, `control`). -/
structure Config where
  cpu : CpuThresholds
  gpu : GpuThresholds
  vrm : VrmThresholds
  power : PowerThresholds
  smoothing : SmoothingConfig
  pwm_max : ℤ

/-- `self.smoothing_enabled = self.smoothing_config.get('enabled', False)`. -/
def smoothing_enabled (cfg : Config) : Bool := cfg.smoothing.enabled.getD false

/-- `SystemStatus` dataclass: one telemetry snapshot. -/
structure SystemStatus where
  cpu_temp : ℚ
  gpu1_temp : ℚ
  gpu2_temp : ℚ
  gpu1_power : ℚ
  gpu2_power : ℚ
  fan_speeds : String → Option ℤ

/-- `FanControlReason` dataclass: one per-actuator decision. -/
structure FanControlReason where
  fan_name : String
  speed_percent : ℤ
  pwm_value : ℤ
  reason : String
  is_emergency : Bool
deriving DecidableEq

/-- `_percent_to_pwm`: `int(percent * pwm_max / 100)`. -/
def percent_to_pwm (cfg : Config) (percent : ℤ) : ℤ :=
  pyInt ((percent : ℚ) * (cfg.pwm_max : ℚ) / 100)

/-- `_calculate_cpu_fan_speed` (source lines 466-493): GPU power
override, then GPU critical-temperature override, then the CPU's own
piecewise-linear law. -/
def calculate_cpu_fan_speed (cfg : Config) (status : SystemStatus) :
    ℤ × String × Bool :=
  if status.gpu1_power ≥ cfg.power.gpu_critical_power ∨
      status.gpu2_power ≥ cfg.power.gpu_critical_power then
    (100, "GPU 전력 임계점 초과 (GPU1: " ++ toString status.gpu1_power ++
      "W, GPU2: " ++ toString status.gpu2_power ++ "W)", false)
  else if status.gpu1_temp ≥ cfg.gpu.critical_temp ∨
      status.gpu2_temp ≥ cfg.gpu.critical_temp then
    (100, "GPU 온도 임계점 초과 (GPU1: " ++ toString status.gpu1_temp ++
      "°C, GPU2: " ++ toString status.gpu2_temp ++ "°C)", false)
  else if status.cpu_temp ≥ cfg.cpu.max_temp then
    (100, "CPU 온도 임계점 초과 (" ++ toString status.cpu_temp ++ "°C)", false)
  else if status.cpu_temp ≥ cfg.cpu.min_temp then
    (pyInt ((cfg.cpu.min_speed : ℚ) +
        (status.cpu_temp - cfg.cpu.min_temp) * ((100 : ℚ) - (cfg.cpu.min_speed : ℚ)) /
          (cfg.cpu.max_temp - cfg.cpu.min_temp)),
      "CPU 온도 기반 제어 (" ++ toString status.cpu_temp ++ "°C, 선형 증가)", false)
  else
    (cfg.cpu.min_speed,
      "최소 팬 속도 유지 (" ++ toString status.cpu_temp ++ "°C)", false)

/-- `_calculate_gpu_fan_speed` (source lines 495-524): individual zone
speed first, then the coupled critical-temperature override over both
GPUs. -/
def calculate_gpu_fan_speed (cfg : Config) (gpu_temp : ℚ)
    (status : SystemStatus) (gpu_name : String) : ℤ × String × Bool :=
  let min_temp := cfg.gpu.min_temp
  let max_temp := cfg.gpu.max_temp
  let individual : ℤ × String :=
    if gpu_temp ≤ min_temp then
      (0, gpu_name ++ " 온도 정상 (" ++ toString gpu_temp ++ "°C)")
    else if gpu_temp ≥ max_temp then
      (100, gpu_name ++ " 온도 임계점 (" ++ toString gpu_temp ++ "°C)")
    else
      (pyInt ((gpu_temp - min_temp) * 100 / (max_temp - min_temp)),
        gpu_name ++ " 온도 선형 제어 (" ++ toString gpu_temp ++ "°C)")
  if status.gpu1_temp ≥ cfg.gpu.critical_temp ∨
      status.gpu2_temp ≥ cfg.gpu.critical_temp then
    (100, "GPU 긴급 상황 (GPU1: " ++ toString status.gpu1_temp ++
      "°C, GPU2: " ++ toString status.gpu2_temp ++ "°C)", false)
  else
    (individual.1, individual.2, false)

/-- `_calculate_vrm_fan_speed` (source lines 526-551): three threshold
checks in order, else the configured default speed. -/
def calculate_vrm_fan_speed (cfg : Config) (status : SystemStatus) :
    ℤ × String × Bool :=
  if status.gpu1_power ≥ cfg.power.vrm_activation_power ∨
      status.gpu2_power ≥ cfg.power.vrm_activation_power then
    (100, "GPU 전력 임계점 초과 (GPU1: " ++ toString status.gpu1_power ++
      "W, GPU2: " ++ toString status.gpu2_power ++ "W)", false)
  else if status.cpu_temp ≥ cfg.vrm.cpu_temp_threshold then
    (100, "CPU 온도 임계점 초과 (" ++ toString status.cpu_temp ++ "°C)", false)
  else if status.gpu1_temp ≥ cfg.vrm.gpu_temp_threshold ∨
      status.gpu2_temp ≥ cfg.vrm.gpu_temp_threshold then
    (100, "GPU 온도 임계점 초과 (GPU1: " ++ toString status.gpu1_temp ++
      "°C, GPU2: " ++ toString status.gpu2_temp ++ "°C)", false)
  else
    (cfg.vrm.default_speed,
      "기본 VRM 팬 속도 유지 (CPU: " ++ toString status.cpu_temp ++ "°C)", false)

/-- The per-zone smoothing parameters chosen inside
`_calculate_smoothed_speed` (source lines 422-442): each zone reads its
two step limits from the smoothing configuration with the source's
defaults, and unknown fan names fall back to `(20, 10)`. -/
def fan_smoothing_params (sc : SmoothingConfig) (fan_name : String) :
    ℤ × ℤ × String :=
  if fan_name = "cpu" then
    (sc.cpu_max_change_up.getD 100, sc.cpu_max_change_down.getD 100, "CPU")
  else if fan_name = "gpu1" ∨ fan_name = "gpu2" then
    (sc.gpu_max_change_up.getD 20, sc.gpu_max_change_down.getD 5, "GPU")
  else if fan_name = "vrm" then
    (sc.vrm_max_change_up.getD 15, sc.vrm_max_change_down.getD 8, "VRM")
  else
    (20, 10, "기타")

/-- `_calculate_smoothed_speed` (source lines 417-464): identity when
the target equals the previous speed, otherwise a per-direction
rate-limited step, clamped to `[0, 100]`, together with the annotation
string that is appended to the decision's reason exactly when the step
was limited. -/
def calculate_smoothed_speed (sc : SmoothingConfig)
    (current_speed target_speed : ℤ) (fan_name : String) : ℤ × String :=
  if current_speed = target_speed then
    (target_speed, "")
  else
    let p := fan_smoothing_params sc fan_name
    let max_change_up := p.1
    let max_change_down := p.2.1
    let fan_type := p.2.2
    let speed_diff := target_speed - current_speed
    if speed_diff > 0 then
      let actual_change := min speed_diff max_change_up
      (max 0 (min 100 (current_speed + actual_change)),
        if actual_change < speed_diff then
          " (" ++ fan_type ++ " 상승: +" ++ toString actual_change ++ "%/s)"
        else "")
    else
      let actual_change := max speed_diff (-max_change_down)
      (max 0 (min 100 (current_speed + actual_change)),
        if actual_change > speed_diff then
          " (" ++ fan_type ++ " 하강: " ++ toString actual_change ++ "%/s)"
        else "")

/-- The `previous_fan_speeds` dictionary (fan name to last applied
percent). -/
abbrev FanState := String → Option ℤ

/-- The empty dictionary created in `__init__`. -/
def FanState.empty : FanState := fun _ => none

/-- Python dictionary assignment `previous_fan_speeds[k] = v`. -/
def FanState.set (st : FanState) (k : String) (v : ℤ) : FanState :=
  fun n => if n = k then some v else st n

/-- `_apply_smoothing` (source lines 381-415): smooth each decision in
order against the running `previous_fan_speeds` state, rebuild the
decision with the smoothed speed, the recomputed PWM value and the
possibly annotated reason, and store the applied speed back into the
state. -/
def apply_smoothing (cfg : Config) :
    FanState → List FanControlReason → List FanControlReason × FanState
  | st, [] => ([], st)
  | st, r :: rs =>
    let current_speed := (st r.fan_name).getD r.speed_percent
    let res := calculate_smoothed_speed cfg.smoothing current_speed
      r.speed_percent r.fan_name
    let rest := apply_smoothing cfg (FanState.set st r.fan_name res.1) rs
    (⟨r.fan_name, res.1, percent_to_pwm cfg res.1,
        r.reason ++ res.2, false⟩ :: rest.1,
      rest.2)

/-- The list of four unsmoothed decisions built in
`calculate_fan_speeds` (source lines 332-372) before the smoothing
step. -/
def policy_decisions (cfg : Config) (status : SystemStatus) :
    List FanControlReason :=
  let c := calculate_cpu_fan_speed cfg status
  let g1 := calculate_gpu_fan_speed cfg status.gpu1_temp status "GPU1"
  let g2 := calculate_gpu_fan_speed cfg status.gpu2_temp status "GPU2"
  let v := calculate_vrm_fan_speed cfg status
  [⟨"cpu", c.1, percent_to_pwm cfg c.1, c.2.1, c.2.2⟩,
    ⟨"gpu1", g1.1, percent_to_pwm cfg g1.1, g1.2.1, g1.2.2⟩,
    ⟨"gpu2", g2.1, percent_to_pwm cfg g2.1, g2.2.1, g2.2.2⟩,
    ⟨"vrm", v.1, percent_to_pwm cfg v.1, v.2.1, v.2.2⟩]

/-- `calculate_fan_speeds` (source lines 330-379): the four policy
decisions, passed through `_apply_smoothing` only when smoothing is
enabled; the smoothing state is returned alongside (in the source it is
the mutated `self.previous_fan_speeds`). -/
def calculate_fan_speeds (cfg : Config) (st : FanState)
    (status : SystemStatus) : List FanControlReason × FanState :=
  let reasons := policy_decisions cfg status
  if smoothing_enabled cfg then apply_smoothing cfg st reasons
  else (reasons, st)

/-- `_initialize_fan_speeds` (source lines 90-101), here named
`init_fan_speeds`: returns immediately when smoothing is disabled,
otherwise seeds the state with `int(current_pwm * 100 / pwm_max)` for
every configured fan (a missing reading defaults to PWM `0`). -/
def init_fan_speeds (cfg : Config) (fans : List String)
    (status : SystemStatus) (st : FanState) : FanState :=
  if smoothing_enabled cfg = false then st
  else
    fans.foldl
      (fun s f =>
        FanState.set s f
          (pyInt ((((status.fan_speeds f).getD 0 : ℤ) : ℚ) * 100 /
            (cfg.pwm_max : ℚ))))
      st

/-- The actuator environment seen by the shutdown sequence: whether each
fan's `pwm_enable` sysfs file exists, and whether writes to the enable
file and to the pwm file succeed.  Failures are per-actuator and
independent. -/
structure ActuatorEnv where
  enable_file_present : String → Bool
  enable_write_ok : String → Bool
  pwm_write_ok : String → Bool

/-- One observable actuator operation of the shutdown sequence, with the
outcome of the attempt. -/
inductive FanOp where
  | forceMax (fan : String) (ok : Bool)
  | settle
  | release (fan : String) (ok : Bool)
deriving DecidableEq

/-- Whether the per-fan body of `_set_all_fans_max` (source lines
156-171) completes without an exception: the guarded enable write (only
attempted when the enable file exists) followed by the pwm write. -/
def force_max_ok (env : ActuatorEnv) (fan : String) : Bool :=
  (!env.enable_file_present fan || env.enable_write_ok fan) &&
    env.pwm_write_ok fan

/-- Whether the per-fan body of `_restore_fan_auto_control` (source
lines 175-192) actually restores automatic mode: the enable file must
exist and the write to it must succeed (a missing file only logs a
warning, a failed write is caught by the per-fan handler). -/
def release_ok (env : ActuatorEnv) (fan : String) : Bool :=
  env.enable_file_present fan && env.enable_write_ok fan

/-- `_set_all_fans_max` (source lines 152-171): every fan is attempted
inside its own `try`/`except`, so the trace records one attempt per fan
regardless of failures. -/
def set_all_fans_max (env : ActuatorEnv) (fans : List String) :
    List FanOp :=
  fans.map fun f => FanOp.forceMax f (force_max_ok env f)

/-- `_restore_fan_auto_control` (source lines 173-192): every fan is
attempted inside its own `try`/`except`. -/
def restore_fan_auto_control (env : ActuatorEnv) (fans : List String) :
    List FanOp :=
  fans.map fun f => FanOp.release f (release_ok env f)

/-- `_graceful_shutdown` (source lines 128-150): force all fans to
maximum, hold for the settle delay, then release all fans to automatic
control.  Because every per-fan write is guarded inside the two loops,
the outer `try`/`except` never takes its failure path and the sequence
always runs to completion. -/
def graceful_shutdown (env : ActuatorEnv) (fans : List String) :
    List FanOp :=
  set_all_fans_max env fans ++ [FanOp.settle] ++
    restore_fan_auto_control env fans

/-- Clamping to the percent range `[0, 100]`. -/
def clamp_percent (x : ℤ) : ℤ := max 0 (min 100 x)

/-- The smoothing step described by the specification: `min(delta,
max_step_up)` on the way up, `max(delta, -max_step_down)` on the way
down, `0` when the target is already reached. -/
def claim_step (up down delta : ℤ) : ℤ :=
  if 0 < delta then min delta up
  else if delta < 0 then max delta (-down)
  else 0

/-- CPU fan target as worded by the specification: GPU power override,
then GPU critical-temperature override, then the CPU temperature law
(100% at/above `cpu_max_temp`, truncated linear interpolation from
`cpu_min_speed` to 100 between `cpu_min_temp` and `cpu_max_temp`, fixed
`cpu_min_speed` below). -/
def cpu_speed_spec (cfg : Config) (status : SystemStatus) : ℤ :=
  if cfg.power.gpu_critical_power ≤ status.gpu1_power ∨
      cfg.power.gpu_critical_power ≤ status.gpu2_power then 100
  else if cfg.gpu.critical_temp ≤ status.gpu1_temp ∨
      cfg.gpu.critical_temp ≤ status.gpu2_temp then 100
  else if cfg.cpu.max_temp ≤ status.cpu_temp then 100
  else if cfg.cpu.min_temp ≤ status.cpu_temp then
    pyInt ((cfg.cpu.min_speed : ℚ) +
      (status.cpu_temp - cfg.cpu.min_temp) * ((100 : ℚ) - (cfg.cpu.min_speed : ℚ)) /
        (cfg.cpu.max_temp - cfg.cpu.min_temp))
  else cfg.cpu.min_speed

/-- Single-GPU fan target as worded by the specification: the
individual zone speed (0% at/below `gpu_min_temp`, 100% at/above
`gpu_max_temp`, truncated linear interpolation between), overridden to
100% whenever either GPU is at/above `gpu_critical_temp`. -/
def gpu_speed_spec (cfg : Config) (gpu_temp : ℚ) (status : SystemStatus) : ℤ :=
  let individual : ℤ :=
    if gpu_temp ≤ cfg.gpu.min_temp then 0
    else if cfg.gpu.max_temp ≤ gpu_temp then 100
    else pyInt ((gpu_temp - cfg.gpu.min_temp) * 100 /
      (cfg.gpu.max_temp - cfg.gpu.min_temp))
  if cfg.gpu.critical_temp ≤ status.gpu1_temp ∨
      cfg.gpu.critical_temp ≤ status.gpu2_temp then 100
  else individual

/-- VRM fan target as worded by the specification: GPU power threshold,
then CPU temperature threshold, then GPU temperature threshold, else the
configured default — no linear zone. -/
def vrm_speed_spec (cfg : Config) (status : SystemStatus) : ℤ :=
  if cfg.power.vrm_activation_power ≤ status.gpu1_power ∨
      cfg.power.vrm_activation_power ≤ status.gpu2_power then 100
  else if cfg.vrm.cpu_temp_threshold ≤ status.cpu_temp then 100
  else if cfg.vrm.gpu_temp_threshold ≤ status.gpu1_temp ∨
      cfg.vrm.gpu_temp_threshold ≤ status.gpu2_temp then 100
  else cfg.vrm.default_speed

/-! ### Basic lemmas about truncation toward zero -/

theorem pyInt_mono {q₁ q₂ : ℚ} (h : q₁ ≤ q₂) : pyInt q₁ ≤ pyInt q₂ := by
  unfold pyInt
  by_cases h1 : 0 ≤ q₁
  · rw [if_pos h1, if_pos (le_trans h1 h)]
    exact Int.floor_le_floor h
  · rw [if_neg h1]
    by_cases h2 : 0 ≤ q₂
    · rw [if_pos h2]
      calc ⌈q₁⌉ ≤ 0 := Int.ceil_le.mpr (by exact_mod_cast le_of_not_le h1)
        _ ≤ ⌊q₂⌋ := Int.floor_nonneg.mpr h2
    · rw [if_neg h2]
      exact Int.ceil_le_ceil h

theorem pyInt_intCast (z : ℤ) : pyInt (z : ℚ) = z := by
  unfold pyInt
  by_cases h : (0 : ℚ) ≤ (z : ℚ)
  · rw [if_pos h, Int.floor_intCast]
  · rw [if_neg h, Int.ceil_intCast]

theorem pyInt_le_of_le_intCast {q : ℚ} {z : ℤ} (h : q ≤ (z : ℚ)) :
    pyInt q ≤ z := by
  have := pyInt_mono h
  rwa [pyInt_intCast] at this

/-! ### Concrete fixtures used by the testable-property scenarios -/

/-- A smoothing section that is absent from the configuration file:
every key is missing, so `enabled` defaults to `False`. -/
def scAbsent : SmoothingConfig :=
  { enabled := none, cpu_max_change_up := none, cpu_max_change_down := none,
    gpu_max_change_up := none, gpu_max_change_down := none,
    vrm_max_change_up := none, vrm_max_change_down := none }

/-- The configuration of the specification's concrete scenarios:
`cpu_min_temp=40, cpu_max_temp=60, cpu_min_speed=50`, GPU `min/max
40/60` with `critical_temp=60`, VRM thresholds 50/50 with default 30,
power thresholds 100/80, `pwm_max=255`. -/
def cfgA : Config :=
  { cpu := { min_temp := 40, max_temp := 60, min_speed := 50 },
    gpu := { min_temp := 40, max_temp := 60, critical_temp := 60 },
    vrm := { cpu_temp_threshold := 50, gpu_temp_threshold := 50,
             default_speed := 30 },
    power := { gpu_critical_power := 100, vrm_activation_power := 80 },
    smoothing := scAbsent,
    pwm_max := 255 }

/-- Snapshot for the CPU scenario: `cpu_temp=55`, both GPUs cool and
far below the power thresholds. -/
def statusCpu55 : SystemStatus :=
  { cpu_temp := 55, gpu1_temp := 30, gpu2_temp := 35,
    gpu1_power := 50, gpu2_power := 50, fan_speeds := fun _ => none }

/-- Snapshot for the GPU override scenario: `gpu1_temp=70` (above the
critical 60), `gpu2_temp=30` (cool), powers low. -/
def statusGpuHot : SystemStatus :=
  { cpu_temp := 45, gpu1_temp := 70, gpu2_temp := 30,
    gpu1_power := 50, gpu2_power := 50, fan_speeds := fun _ => none }

/-! ### Claim theorems -/

/-- C1: for every configuration and telemetry snapshot, each GPU fan's
target equals the specification's description — the individual
truncated-linear zone speed, overridden to 100% whenever either GPU is
at/above `gpu_critical_temp` — and in the concrete scenario
(`min/max 40/60`, `critical 60`, `gpu1_temp=70`, `gpu2_temp=30`) both
GPU fan targets are 100%, in particular GPU2's despite its cool
individual reading. -/
theorem gpu_fan_speed_matches_spec :
    (∀ (cfg : Config) (gpu_temp : ℚ) (status : SystemStatus) (gpu_name : String),
      (calculate_gpu_fan_speed cfg gpu_temp status gpu_name).1 =
        gpu_speed_spec cfg gpu_temp status)
    ∧ (calculate_gpu_fan_speed cfgA statusGpuHot.gpu1_temp statusGpuHot "GPU1").1 = 100
    ∧ (calculate_gpu_fan_speed cfgA statusGpuHot.gpu2_temp statusGpuHot "GPU2").1 = 100 := by
  refine ⟨?_, ?_, ?_⟩
  · intro cfg gpu_temp status gpu_name
    simp only [calculate_gpu_fan_speed, gpu_speed_spec, ge_iff_le]
    split_ifs <;> rfl
  · norm_num [calculate_gpu_fan_speed, cfgA, statusGpuHot]
  · norm_num [calculate_gpu_fan_speed, cfgA, statusGpuHot]

/-- C5: for every configuration and telemetry snapshot, the CPU fan
target equals the specification's decision order (GPU power override,
GPU critical-temperature override, CPU max, truncated linear zone,
fixed minimum), and the concrete scenario `cpu_temp=55, min/max 40/60,
min_speed=50` yields 87 (truncation of 87.5). -/
theorem cpu_fan_speed_matches_spec :
    (∀ (cfg : Config) (status : SystemStatus),
      (calculate_cpu_fan_speed cfg status).1 = cpu_speed_spec cfg status)
    ∧ (calculate_cpu_fan_speed cfgA statusCpu55).1 = 87 := by
  refine ⟨?_, ?_⟩
  · intro cfg status
    simp only [calculate_cpu_fan_speed, cpu_speed_spec, ge_iff_le]
    split_ifs <;> rfl
  · norm_num [calculate_cpu_fan_speed, cfgA, statusCpu55, pyInt]

/-- C7: for every configuration and telemetry snapshot, the VRM fan
target equals the specification's decision order: 100% when either
GPU's power is at/above `vrm_activation_power`, else 100% when the CPU
temperature is at/above `vrm_cpu_temp_threshold`, else 100% when either
GPU's temperature is at/above `vrm_gpu_temp_threshold`, else the
configured `vrm_default_speed` — with no linear zone. -/
theorem vrm_fan_speed_matches_spec :
    ∀ (cfg : Config) (status : SystemStatus),
      (calculate_vrm_fan_speed cfg status).1 = vrm_speed_spec cfg status := by
  intro cfg status
  simp only [calculate_vrm_fan_speed, vrm_speed_spec, ge_iff_le]
  split_ifs <;> rfl

/-! ### Smoothing lemmas -/

theorem str_append4_ne_empty (a b c d e : String) (ha : a.length ≠ 0) :
    a ++ b ++ c ++ d ++ e ≠ "" := by
  intro h
  have h2 := congrArg String.length h
  simp [String.length_append] at h2
  omega

theorem calc_smoothed_fst_eq (sc : SmoothingConfig) (prev target : ℤ)
    (name : String) (h0 : 0 ≤ prev) (h1 : prev ≤ 100) :
    (calculate_smoothed_speed sc prev target name).1 =
      clamp_percent (prev +
        claim_step (fan_smoothing_params sc name).1
          (fan_smoothing_params sc name).2.1 (target - prev)) := by
  unfold calculate_smoothed_speed claim_step clamp_percent
  by_cases he : prev = target
  · rw [if_pos he]
    simp [he]
    omega
  · rw [if_neg he]
    dsimp only
    split_ifs with hgt hgt2 hlt <;> first | rfl | omega

/-- C4: for every actuator of one of the four zones and every
previously applied percent `prev ∈ [0,100]`, the smoothing engine
outputs exactly `clamp(prev + step, 0, 100)` with `step` as the
per-direction rate-limited delta selected through the actuator's zone
parameters, and the state entry for that actuator is updated to the
applied value. -/
theorem smoothing_step_matches_spec (cfg : Config) (st : FanState)
    (r : FanControlReason)
    (hname : r.fan_name = "cpu" ∨ r.fan_name = "gpu1" ∨
      r.fan_name = "gpu2" ∨ r.fan_name = "vrm")
    (h0 : 0 ≤ (st r.fan_name).getD r.speed_percent)
    (h1 : (st r.fan_name).getD r.speed_percent ≤ 100) :
    (calculate_smoothed_speed cfg.smoothing
        ((st r.fan_name).getD r.speed_percent) r.speed_percent r.fan_name).1 =
      clamp_percent ((st r.fan_name).getD r.speed_percent +
        claim_step (fan_smoothing_params cfg.smoothing r.fan_name).1
          (fan_smoothing_params cfg.smoothing r.fan_name).2.1
          (r.speed_percent - (st r.fan_name).getD r.speed_percent))
    ∧ (apply_smoothing cfg st [r]).2 r.fan_name =
        some ((calculate_smoothed_speed cfg.smoothing
          ((st r.fan_name).getD r.speed_percent) r.speed_percent
          r.fan_name).1) := by
  constructor
  · exact calc_smoothed_fst_eq cfg.smoothing _ _ r.fan_name h0 h1
  · simp [apply_smoothing, FanState.set]

/-- C6: with nonnegative configured step limits, the smoothed output
for a previous value in `[0,100]` always lies in `[0,100]`, and its
distance from the previous value is at most the larger of the zone's
two step limits. -/
theorem smoothing_output_bounded (sc : SmoothingConfig) (prev target : ℤ)
    (name : String) (h0 : 0 ≤ prev) (h1 : prev ≤ 100)
    (hup : 0 ≤ (fan_smoothing_params sc name).1)
    (hdown : 0 ≤ (fan_smoothing_params sc name).2.1) :
    0 ≤ (calculate_smoothed_speed sc prev target name).1 ∧
      (calculate_smoothed_speed sc prev target name).1 ≤ 100 ∧
      |(calculate_smoothed_speed sc prev target name).1 - prev| ≤
        max (fan_smoothing_params sc name).1
          (fan_smoothing_params sc name).2.1 := by
  unfold calculate_smoothed_speed
  by_cases he : prev = target
  · rw [if_pos he]
    refine ⟨by omega, by omega, ?_⟩
    rw [abs_le]
    constructor <;> omega
  · rw [if_neg he]
    dsimp only
    split_ifs <;>
      (refine ⟨by omega, by omega, ?_⟩
       rw [abs_le]
       constructor <;> omega)

/-- C8: the smoothing engine's annotation is empty exactly when the
step was not limited (`step = target - prev`); an empty annotation
leaves the original reason unchanged when appended; and when the target
equals the previous value the engine is a no-op returning the previous
value with no annotation. -/
theorem smoothing_annotation_iff (sc : SmoothingConfig) (prev target : ℤ)
    (name : String) :
    ((calculate_smoothed_speed sc prev target name).2 = "" ↔
      claim_step (fan_smoothing_params sc name).1
        (fan_smoothing_params sc name).2.1 (target - prev) = target - prev)
    ∧ (∀ s : String, (calculate_smoothed_speed sc prev target name).2 = "" →
        s ++ (calculate_smoothed_speed sc prev target name).2 = s)
    ∧ (target = prev →
        calculate_smoothed_speed sc prev target name = (prev, "")) := by
  refine ⟨?_, ?_, ?_⟩
  · unfold calculate_smoothed_speed claim_step
    by_cases he : prev = target
    · rw [if_pos he]
      simp [he]
    · rw [if_neg he]
      dsimp only
      split_ifs
      all_goals
        first
          | exact iff_of_false
              (str_append4_ne_empty _ _ _ _ _ (by decide)) (by omega)
          | exact iff_of_true rfl (by omega)
  · intro s h
    rw [h]
    simp
  · intro h
    subst h
    unfold calculate_smoothed_speed
    rw [if_pos rfl]

/-- C2: for every actuator environment (including one in which every
write fails) and every configured fan, the shutdown sequence contains a
force-to-maximum attempt and a release-to-automatic attempt for that
fan, each recorded with its own independent outcome, and the whole
sequence runs to completion (one attempt per fan in each phase plus the
settle step). -/
theorem shutdown_attempts_every_fan (env : ActuatorEnv)
    (fans : List String) (f : String) (hf : f ∈ fans) :
    FanOp.forceMax f (force_max_ok env f) ∈ graceful_shutdown env fans
    ∧ FanOp.release f (release_ok env f) ∈ graceful_shutdown env fans
    ∧ (graceful_shutdown env fans).length =
        fans.length + 1 + fans.length := by
  refine ⟨?_, ?_, ?_⟩
  · unfold graceful_shutdown set_all_fans_max
    exact List.mem_append_left _
      (List.mem_append_left _ (List.mem_map_of_mem _ hf))
  · unfold graceful_shutdown restore_fan_auto_control
    exact List.mem_append_right _ (List.mem_map_of_mem _ hf)
  · simp [graceful_shutdown, set_all_fans_max, restore_fan_auto_control]
    omega

/-- An environment in which every actuator write fails (the enable
files exist but no write succeeds). -/
def envAllFail : ActuatorEnv :=
  { enable_file_present := fun _ => true,
    enable_write_ok := fun _ => false,
    pwm_write_ok := fun _ => false }

/-- The four configured fans. -/
def fansAll : List String := ["cpu", "gpu1", "gpu2", "vrm"]

/-- Witness for C2: with all four fans and an environment failing every
write, the force and release attempts for `gpu1` (both failing) are in
the trace. -/
theorem shutdown_attempts_every_fan_witness :
    FanOp.forceMax "gpu1" false ∈ graceful_shutdown envAllFail fansAll
    ∧ FanOp.release "gpu1" false ∈ graceful_shutdown envAllFail fansAll := by
  have h := shutdown_attempts_every_fan envAllFail fansAll "gpu1" (by decide)
  exact ⟨h.1, h.2.1⟩

theorem interp_mono {a b m t₁ t₂ : ℚ} (hab : a < b) (hm : m ≤ 100)
    (h : t₁ ≤ t₂) :
    m + (t₁ - a) * (100 - m) / (b - a) ≤
      m + (t₂ - a) * (100 - m) / (b - a) := by
  apply add_le_add_left
  apply (div_le_div_iff_of_pos_right (sub_pos.mpr hab)).mpr
  exact mul_le_mul_of_nonneg_right (sub_le_sub_right h a)
    (sub_nonneg.mpr hm)

theorem interp_le_100 {a b m t : ℚ} (hab : a < b) (hm : m ≤ 100)
    (ht : t ≤ b) :
    m + (t - a) * (100 - m) / (b - a) ≤ 100 := by
  have hba : (0 : ℚ) < b - a := sub_pos.mpr hab
  have h1 : (t - a) * (100 - m) / (b - a) ≤
      (b - a) * (100 - m) / (b - a) := by
    apply (div_le_div_iff_of_pos_right hba).mpr
    exact mul_le_mul_of_nonneg_right (sub_le_sub_right ht a)
      (sub_nonneg.mpr hm)
  have h2 : (b - a) * (100 - m) / (b - a) = 100 - m :=
    mul_div_cancel_left₀ _ (ne_of_gt hba)
  calc m + (t - a) * (100 - m) / (b - a)
      ≤ m + (b - a) * (100 - m) / (b - a) := add_le_add_left h1 m
    _ = m + (100 - m) := by rw [h2]
    _ = 100 := by ring

/-- C9: within the CPU linear zone (temperatures between `cpu_min_temp`
and `cpu_max_temp`), with `cpu_min_temp < cpu_max_temp`,
`cpu_min_speed ≤ 100` and no cross-zone override active, the CPU fan
target (including the integer truncation) is monotonically
non-decreasing in the CPU temperature. -/
theorem cpu_linear_zone_monotone (cfg : Config) (status : SystemStatus)
    (t₁ t₂ : ℚ) (hab : cfg.cpu.min_temp < cfg.cpu.max_temp)
    (hm : cfg.cpu.min_speed ≤ 100)
    (ha : cfg.cpu.min_temp ≤ t₁) (h12 : t₁ ≤ t₂)
    (hb : t₂ ≤ cfg.cpu.max_temp)
    (hp1 : status.gpu1_power < cfg.power.gpu_critical_power)
    (hp2 : status.gpu2_power < cfg.power.gpu_critical_power)
    (hg1 : status.gpu1_temp < cfg.gpu.critical_temp)
    (hg2 : status.gpu2_temp < cfg.gpu.critical_temp) :
    (calculate_cpu_fan_speed cfg { status with cpu_temp := t₁ }).1 ≤
      (calculate_cpu_fan_speed cfg { status with cpu_temp := t₂ }).1 := by
  have hm' : (cfg.cpu.min_speed : ℚ) ≤ 100 := by exact_mod_cast hm
  have hP : ¬(cfg.power.gpu_critical_power ≤ status.gpu1_power ∨
      cfg.power.gpu_critical_power ≤ status.gpu2_power) := by
    push_neg
    exact ⟨hp1, hp2⟩
  have hT : ¬(cfg.gpu.critical_temp ≤ status.gpu1_temp ∨
      cfg.gpu.critical_temp ≤ status.gpu2_temp) := by
    push_neg
    exact ⟨hg1, hg2⟩
  unfold calculate_cpu_fan_speed
  simp only [ge_iff_le]
  rw [if_neg hP, if_neg hT, if_neg hP, if_neg hT]
  by_cases hc2 : cfg.cpu.max_temp ≤ t₂
  · rw [if_pos hc2]
    by_cases hc1 : cfg.cpu.max_temp ≤ t₁
    · rw [if_pos hc1]
    · rw [if_neg hc1, if_pos ha]
      dsimp only
      exact pyInt_le_of_le_intCast
        (by push_cast; exact interp_le_100 hab hm' (le_trans h12 hb))
  · have hc1 : ¬ cfg.cpu.max_temp ≤ t₁ := fun h =>
      hc2 (le_trans h h12)
    rw [if_neg hc1, if_pos ha, if_neg hc2, if_pos (le_trans ha h12)]
    dsimp only
    exact pyInt_mono (interp_mono hab hm' h12)

/-- C10: when `smoothing.enabled` is false or absent, startup
initialization leaves the smoothing state untouched, every tick returns
exactly the four unsmoothed policy decisions together with the
untouched state, and the state reached after initialization followed by
any sequence of ticks is still the empty dictionary. -/
theorem smoothing_disabled_frame (cfg : Config)
    (hdis : smoothing_enabled cfg = false) :
    (∀ (fans : List String) (status : SystemStatus) (st : FanState),
      init_fan_speeds cfg fans status st = st)
    ∧ (∀ (st : FanState) (status : SystemStatus),
      calculate_fan_speeds cfg st status = (policy_decisions cfg status, st))
    ∧ (∀ (statuses : List SystemStatus) (fans : List String)
        (status₀ : SystemStatus),
      List.foldl (fun st status => (calculate_fan_speeds cfg st status).2)
        (init_fan_speeds cfg fans status₀ FanState.empty) statuses =
          FanState.empty) := by
  have hinit : ∀ (fans : List String) (status : SystemStatus)
      (st : FanState), init_fan_speeds cfg fans status st = st := by
    intro fans status st
    unfold init_fan_speeds
    rw [if_pos hdis]
  have hcalc : ∀ (st : FanState) (status : SystemStatus),
      calculate_fan_speeds cfg st status =
        (policy_decisions cfg status, st) := by
    intro st status
    unfold calculate_fan_speeds
    rw [if_neg]
    simp [hdis]
  refine ⟨hinit, hcalc, ?_⟩
  intro statuses fans status₀
  rw [hinit]
  induction statuses with
  | nil => rfl
  | cons s ss ih =>
    rw [List.foldl_cons]
    have : (calculate_fan_speeds cfg FanState.empty s).2 = FanState.empty := by
      rw [hcalc]
    rw [this]
    exact ih

/-- Witness for C10: with the scenario configuration (whose smoothing
section is absent), a tick returns the unsmoothed policy decisions and
leaves the empty state unchanged. -/
theorem smoothing_disabled_frame_witness :
    calculate_fan_speeds cfgA FanState.empty statusCpu55 =
      (policy_decisions cfgA statusCpu55, FanState.empty) :=
  (smoothing_disabled_frame cfgA rfl).2.1 FanState.empty statusCpu55

/-- A smoothing state holding `gpu1` at 20%. -/
def stGpu20 : FanState := FanState.empty.set "gpu1" 20

/-- A decision asking 90% for `gpu1` (the specification's smoothing
scenario `prev=20, target=90, max_step_up=20`). -/
def rGpu90 : FanControlReason :=
  { fan_name := "gpu1", speed_percent := 90,
    pwm_value := 229, reason := "GPU1 온도 선형 제어", is_emergency := false }

/-- Witness for C4: with `prev=20`, `target=90` and the default GPU
step limits `(20, 5)`, the applied speed is `clamp(20 + 20) = 40` and
the state entry for `gpu1` becomes 40. -/
theorem smoothing_step_matches_spec_witness :
    (calculate_smoothed_speed cfgA.smoothing
        ((stGpu20 rGpu90.fan_name).getD rGpu90.speed_percent)
        rGpu90.speed_percent rGpu90.fan_name).1 =
      clamp_percent ((stGpu20 rGpu90.fan_name).getD rGpu90.speed_percent +
        claim_step (fan_smoothing_params cfgA.smoothing rGpu90.fan_name).1
          (fan_smoothing_params cfgA.smoothing rGpu90.fan_name).2.1
          (rGpu90.speed_percent -
            (stGpu20 rGpu90.fan_name).getD rGpu90.speed_percent))
    ∧ (apply_smoothing cfgA stGpu20 [rGpu90]).2 rGpu90.fan_name =
        some ((calculate_smoothed_speed cfgA.smoothing
          ((stGpu20 rGpu90.fan_name).getD rGpu90.speed_percent)
          rGpu90.speed_percent rGpu90.fan_name).1) :=
  smoothing_step_matches_spec cfgA stGpu20 rGpu90
    (Or.inr (Or.inl rfl)) (by decide) (by decide)

/-- Witness for C6: with `prev=20`, `target=90` and the default GPU
limits, the smoothed output is within bounds and within one maximal
step of the previous value. -/
theorem smoothing_output_bounded_witness :
    0 ≤ (calculate_smoothed_speed cfgA.smoothing 20 90 "gpu1").1 ∧
      (calculate_smoothed_speed cfgA.smoothing 20 90 "gpu1").1 ≤ 100 ∧
      |(calculate_smoothed_speed cfgA.smoothing 20 90 "gpu1").1 - 20| ≤
        max (fan_smoothing_params cfgA.smoothing "gpu1").1
          (fan_smoothing_params cfgA.smoothing "gpu1").2.1 :=
  smoothing_output_bounded cfgA.smoothing 20 90 "gpu1"
    (by decide) (by decide) (by decide) (by decide)

/-- Witness for C8: at `target = prev = 20` the engine is a no-op with
no annotation. -/
theorem smoothing_annotation_iff_witness :
    calculate_smoothed_speed cfgA.smoothing 20 20 "gpu1" = (20, "") :=
  (smoothing_annotation_iff cfgA.smoothing 20 20 "gpu1").2.2 rfl

/-- Witness for C9: in the scenario configuration with both cross-zone
overrides inactive, the CPU target at 45 °C is at most the target at
55 °C. -/
theorem cpu_linear_zone_monotone_witness :
    (calculate_cpu_fan_speed cfgA
        { statusCpu55 with cpu_temp := 45 }).1 ≤
      (calculate_cpu_fan_speed cfgA
        { statusCpu55 with cpu_temp := 55 }).1 :=
  cpu_linear_zone_monotone cfgA statusCpu55 45 55
    (by decide) (by decide) (by decide) (by decide) (by decide)
    (by decide) (by decide) (by decide) (by decide)

end FanControl
